import Mathlib

/-!
# Retrieval-and-grounding pipeline of the physical-ai-humanoid-textbook backend

A shallow embedding of the core RAG pipeline of the repository:

* `app/services/chunker.py` — Markdown-aware chunking (`MarkdownChunker`,
  `extract_headings`, `chunk_by_headings`, `_split_long_text`, `chunk_document`);
* `app/services/rag_multilingual.py` — the character-based `_split_into_chunks`;
* `app/services/qdrant.py` — the `SearchResult` data model and the payload
  conversion performed by `search_similar`;
* `app/services/rag.py` — the retrieval orchestrator
  (`retrieve_chunks_whole_book`, `retrieve_chunks_selection`), the context
  assembler (`build_context`, `format_sources_section`), the confidence and
  citation extractor (`calculate_confidence`, `extract_citations`) and the
  pipeline entry point `answer_chat_request`.

Modelling conventions:

* Python strings are modelled as Lean `String`s; slicing, `strip`, `rfind`
  and `len` operate on characters, matching Python code-point semantics.
* The tiktoken encoding held by `MarkdownChunker` is an external library
  object; it is modelled by two abstract functions `encode`/`decode` carried
  in the `MarkdownChunker` structure.  Token positions are natural numbers;
  this matches Python for the configurations exercised here
  (`chunk_overlap ≤ chunk_size`, where all loop positions stay nonnegative).
* The `while` loop of `_split_long_text` need not terminate for
  `chunk_overlap ≥ chunk_size`, so it is modelled with explicit fuel,
  `none` marking a run that exceeds the fuel; the wrapper supplies
  `total_tokens + 1` fuel, which is shown sufficient whenever
  `chunk_overlap < chunk_size`.
* The embedding and vector-index collaborators (spec §6) are abstract
  function parameters `embed` and `search`; `search` mirrors
  `qdrant.search_similar`'s actual signature — query vector, `limit`, the
  optional `doc_path` and `module_id` filters; it has no language filter.
  Generation is an abstract `gen`.  Similarity scores are opaque
  pass-through values, modelled as `Rat`.
* Python error semantics are modelled explicitly: a keyword argument the
  callee's signature does not declare raises `TypeError` at the call, before
  the callee runs (`py_kwarg_call`); attribute access on a field a dataclass
  or pydantic model does not define raises `AttributeError`; pydantic field
  constraints are checked when the model is instantiated
  (`ValidationError`).  Fallible functions return `Except PyErr`.
-/

/-- Python `\s` for the ASCII range: space, tab, newline, carriage return,
vertical tab, form feed (as used by `re` and `str.strip`). -/
def pyIsSpace (c : Char) : Bool :=
  c == ' ' || c == '\t' || c == '\n' || c == '\r' || c == '\x0b' || c == '\x0c'

/-- Python `str.strip()`: remove leading and trailing whitespace. -/
def pyStrip (s : String) : String :=
  String.mk (((s.toList.dropWhile pyIsSpace).reverse.dropWhile pyIsSpace).reverse)

/-- Python slice `text[a:b]` on a character list (for `0 ≤ a ≤ b`). -/
def sliceChars (cs : List Char) (a b : Nat) : List Char :=
  (cs.drop a).take (b - a)

/-- Python `hay.rfind(needle)`: highest index at which `needle` occurs in
`hay`, `-1` when absent. -/
def pyRfind (hay needle : List Char) : Int :=
  match ((List.range (hay.length + 1)).filter
      (fun i => needle.isPrefixOf (hay.drop i))).getLast? with
  | some i => (i : Int)
  | none => -1

/-! ## Chunker (`app/services/chunker.py`) -/

/-- `TextChunk` dataclass: a chunk of text with metadata. -/
structure TextChunk where
  text : String
  heading : String
  chunk_index : Nat
  token_count : Nat
deriving DecidableEq, Repr

/-- `MarkdownChunker.__init__`: stores `chunk_size`, `chunk_overlap` and the
tiktoken encoding (modelled by the abstract `encode`/`decode` pair).  The
constructor performs no validation of `chunk_size` against `chunk_overlap`. -/
structure MarkdownChunker where
  chunk_size : Nat
  chunk_overlap : Nat
  encode : String → List Nat
  decode : List Nat → String

/-- `MarkdownChunker.count_tokens`: `len(self.encoding.encode(text))`. -/
def count_tokens (c : MarkdownChunker) (text : String) : Nat :=
  (c.encode text).length

/-- One attempt of the MULTILINE regex `^(#{1,6})\s+(.+)$` at a line-start
position.  Returns `(group2.strip(), level, consumed)` where `consumed` is the
length of the whole match.  The greedy `\s+` takes the maximal whitespace run;
if a character follows it, `(.+)` is the maximal newline-free run from there;
if the string ends inside the whitespace run, backtracking leaves the last
newline-free whitespace character to `(.+)` (so `group2.strip()` is empty),
provided at least one whitespace character remains for `\s+`. -/
def headingMatchAt (cs : List Char) : Option (String × Nat × Nat) :=
  let k := (cs.takeWhile (fun c => c == '#')).length
  if k = 0 ∨ 6 < k then none
  else
    let rest := cs.drop k
    let w := (rest.takeWhile pyIsSpace).length
    if w = 0 then none
    else
      match rest.drop w with
      | [] =>
        let trimmed := (rest.take w).reverse.dropWhile (fun c => c == '\n')
        if 2 ≤ trimmed.length then some ("", k, k + trimmed.length) else none
      | _ :: _ =>
        let t := (rest.drop w).takeWhile (fun c => c ≠ '\n')
        some (pyStrip (String.mk t), k, k + w + t.length)

theorem headingMatchAt_pos {cs : List Char} {h : String} {k n : Nat}
    (hm : headingMatchAt cs = some (h, k, n)) : 0 < n := by
  simp only [headingMatchAt] at hm
  split at hm
  · exact absurd hm (by simp)
  · split at hm
    · exact absurd hm (by simp)
    · split at hm
      · split at hm
        · simp only [Option.some.injEq, Prod.mk.injEq] at hm
          omega
        · exact absurd hm (by simp)
      · simp only [Option.some.injEq, Prod.mk.injEq] at hm
        omega

/-- The scanning loop of `re.finditer` for `extract_headings`: try the pattern
at every line start, and resume after the end of each match.  The loop always
terminates — every step consumes at least one character (a match consumes its
whole length, which is positive by `headingMatchAt_pos`) — and is written with
structural fuel so that it evaluates definitionally; fuel equal to the number
of remaining characters never runs out. -/
def extract_headings_go (fuel : Nat) (cs : List Char) (pos : Nat)
    (atLineStart : Bool) : List (String × Nat × String) :=
  match fuel, cs with
  | 0, _ => []
  | _, [] => []
  | f + 1, c :: rest =>
    if atLineStart then
      match headingMatchAt (c :: rest) with
      | some (htext, lvl, consumed) =>
        (htext, pos, "h" ++ toString lvl) ::
          extract_headings_go f ((c :: rest).drop consumed) (pos + consumed) false
      | none => extract_headings_go f rest (pos + 1) (c == '\n')
    else extract_headings_go f rest (pos + 1) (c == '\n')

/-- `MarkdownChunker.extract_headings`: markdown headings with character
positions and levels, via `re.finditer(r"^(#{1,6})\s+(.+)$", text, MULTILINE)`.
Each entry is `(heading_text, char_position, "h<level>")`. -/
def extract_headings (text : String) : List (String × Nat × String) :=
  extract_headings_go text.toList.length text.toList 0 true

/-- The `while current_pos < total_tokens` loop of
`MarkdownChunker._split_long_text`, with explicit fuel (Python has no bound:
the loop need not terminate when `chunk_overlap ≥ chunk_size`).  `none` means
the fuel was exhausted.  Each iteration emits the window
`tokens[current_pos:end_pos]` with `end_pos = min(current_pos + chunk_size,
total_tokens)` and continues at `end_pos - chunk_overlap` while
`end_pos < total_tokens`. -/
def split_loop (c : MarkdownChunker) (tokens : List Nat) (heading : String)
    (fuel cur idx : Nat) : Option (List TextChunk) :=
  match fuel with
  | 0 => none
  | f + 1 =>
    if cur < tokens.length then
      let endPos := min (cur + c.chunk_size) tokens.length
      let chunkTokens := (tokens.drop cur).take (endPos - cur)
      let chunk : TextChunk :=
        ⟨c.decode chunkTokens, heading, idx, chunkTokens.length⟩
      if endPos < tokens.length then
        match split_loop c tokens heading f (endPos - c.chunk_overlap) (idx + 1) with
        | none => none
        | some more => some (chunk :: more)
      else some [chunk]
    else some []

/-- `MarkdownChunker._split_long_text`: split long text into overlapping
chunks.  The wrapper supplies `total_tokens + 1` fuel, which suffices whenever
`chunk_overlap < chunk_size` (see `split_loop_isSome`). -/
def _split_long_text (c : MarkdownChunker) (text heading : String)
    (start_index : Nat) : Option (List TextChunk) :=
  let tokens := c.encode text
  split_loop c tokens heading (tokens.length + 1) 0 start_index

/-- The per-section step of `chunk_by_headings` (lines 131-146): a section
whose token count is `≤ chunk_size` is emitted whole; otherwise it is split
with overlap via `_split_long_text`. -/
def section_to_chunks (c : MarkdownChunker) (sec heading : String)
    (chunk_index : Nat) : Option (List TextChunk) :=
  let section_tokens := count_tokens c sec
  if section_tokens ≤ c.chunk_size then
    some [⟨sec, heading, chunk_index, section_tokens⟩]
  else
    _split_long_text c sec heading chunk_index

/-- The end position of the section starting at the current heading: the
position of the next heading, or the end of the text. -/
def next_heading_pos (cs : List Char) (rest : List (String × Nat)) : Nat :=
  match rest with
  | (_, p) :: _ => p
  | [] => cs.length

/-- The loop of `chunk_by_headings` over the extracted headings: each section
runs from its heading position to the next heading (or end of text), is
sliced and stripped, and `chunk_index` advances by the number of chunks the
section produced. -/
def chunk_sections_go (c : MarkdownChunker) (cs : List Char)
    (hs : List (String × Nat)) (chunk_index : Nat) : Option (List TextChunk) :=
  match hs with
  | [] => some []
  | (heading, pos) :: rest =>
    let sec := pyStrip (String.mk (sliceChars cs pos (next_heading_pos cs rest)))
    match section_to_chunks c sec heading chunk_index with
    | none => none
    | some secChunks =>
      match chunk_sections_go c cs rest (chunk_index + secChunks.length) with
      | none => none
      | some more => some (secChunks ++ more)

/-- `MarkdownChunker.chunk_by_headings`: chunk text by markdown headings,
respecting token limits; with no headings the entire text is one section under
the heading `"Introduction"` and is split directly. -/
def chunk_by_headings (c : MarkdownChunker) (text : String) :
    Option (List TextChunk) :=
  let headings := extract_headings text
  if headings = [] then
    _split_long_text c text "Introduction" 0
  else
    chunk_sections_go c text.toList (headings.map (fun h => (h.1, h.2.1))) 0

/-- `MarkdownChunker.chunk_document`: main entry point, delegates to
`chunk_by_headings`. -/
def chunk_document (c : MarkdownChunker) (text : String) :
    Option (List TextChunk) :=
  chunk_by_headings c text

/-! ## Character-based chunking (`app/services/rag_multilingual.py`) -/

/-- The `while start < text_length` loop of `_split_into_chunks`; only
reachable under `chunk_overlap < chunk_size` (the guard already raised
otherwise), which also makes the loop well-founded: `start` advances by
`chunk_size - chunk_overlap ≥ 1`. -/
def split_into_chunks_loop (text : List Char) (chunk_size chunk_overlap : Nat)
    (h : chunk_overlap < chunk_size) (start : Nat) : List String :=
  if _hl : start < text.length then
    let chunk := String.mk (sliceChars text start (start + chunk_size))
    let tail := split_into_chunks_loop text chunk_size chunk_overlap h
      (start + (chunk_size - chunk_overlap))
    if pyStrip chunk ≠ "" then chunk :: tail else tail
  else []
termination_by text.length - start
decreasing_by omega

/-- `_split_into_chunks` from `rag_multilingual.py`: character-based
overlapping chunking.  Raises `ValueError` when
`chunk_size <= chunk_overlap`, before producing any chunk. -/
def _split_into_chunks (text : String) (chunk_size : Nat := 500)
    (chunk_overlap : Nat := 50) : Except String (List String) :=
  if h : chunk_size ≤ chunk_overlap then
    .error "chunk_size must be greater than chunk_overlap"
  else
    .ok (split_into_chunks_loop text.toList chunk_size chunk_overlap
      (by omega) 0)

/-! ## Vector index data model (`app/services/qdrant.py`) -/

/-- Python exceptions raised by the modelled code. -/
inductive PyErr where
  | attributeError
  | valueError
  | typeError
  | validationError
deriving DecidableEq, Repr

/-- `SearchResult` dataclass of `qdrant.py` (lines 95-116): result of a
similarity search.  Its fields are exactly `id`, `score`, `doc_path`,
`module_id`, `heading`, `chunk_index`, `text`; in particular it defines no
`url_path` field.  Scores are opaque pass-through values, modelled as `Rat`. -/
structure SearchResult where
  id : String
  score : Rat
  doc_path : String
  module_id : String
  heading : String
  chunk_index : Nat
  text : String
deriving DecidableEq, Repr

/-- The Qdrant point payload restricted to the keys `search_similar` reads;
`none` models a key absent from the payload dict. -/
structure PointPayload where
  doc_path : Option String
  module_id : Option String
  heading : Option String
  chunk_index : Option Nat
  text : Option String
deriving DecidableEq, Repr

/-- A scored point returned by `query_points` (`with_payload=True`); `id` is
already the `str(point.id)` form the conversion applies. -/
structure ScoredPoint where
  id : String
  score : Rat
  payload : PointPayload
deriving DecidableEq, Repr

/-- The conversion `search_similar` applies to one returned point
(lines 426-437): every payload field is read with `payload.get(key, default)`,
defaulting to `""` for the string fields and `0` for `chunk_index`. -/
def search_result_of_point (p : ScoredPoint) : SearchResult :=
  { id := p.id
    score := p.score
    doc_path := p.payload.doc_path.getD ""
    module_id := p.payload.module_id.getD ""
    heading := p.payload.heading.getD ""
    chunk_index := p.payload.chunk_index.getD 0
    text := p.payload.text.getD "" }

/-- The result-construction step of `search_similar`: the list comprehension
converting every returned point into a `SearchResult`. -/
def search_similar_results (points : List ScoredPoint) : List SearchResult :=
  points.map search_result_of_point

/-! ## RAG pipeline (`app/services/rag.py`) -/

/-- The pydantic `Citation` model (schemas.py 94-122): source citation for
RAG-generated answers, with fields `docPath`, `heading`, `snippet`. -/
structure Citation where
  docPath : String
  heading : String
  snippet : String
deriving DecidableEq, Repr

/-- Construction of a pydantic `Citation`: the model validates its fields
when instantiated, and `snippet` carries `min_length=10` and
`max_length=500` (schemas.py 117-122), so a snippet outside those bounds
raises `ValidationError`. -/
def mk_Citation (docPath heading snippet : String) : Except PyErr Citation :=
  if 10 ≤ snippet.length ∧ snippet.length ≤ 500 then
    .ok ⟨docPath, heading, snippet⟩
  else .error .validationError

/-- The keyword parameters of `search_similar` (qdrant.py 350-357):
`query_vector`, `limit`, `collection_name`, `doc_path`, `module_id`,
`score_threshold`.  There is no `language` parameter, and the function builds
filter conditions only for `doc_path` and `module_id`. -/
def search_similar_params : List String :=
  ["query_vector", "limit", "collection_name", "doc_path", "module_id",
   "score_threshold"]

/-- Python keyword binding: a call that passes a keyword argument the
callee's signature does not declare raises `TypeError` at the call site,
before the callee's body (`run`) ever executes. -/
def py_kwarg_call {α : Type} (params kwargs : List String) (run : Unit → α) :
    Except PyErr α :=
  if kwargs.all (fun k => params.contains k) then .ok (run ())
  else .error .typeError

/-- `retrieve_chunks_whole_book` (rag.py 76-132) as the source executes it.
`search query_vector limit doc_path module_id` is the vector-index
collaborator behind `qdrant.search_similar`'s actual signature
(`collection_name` and `score_threshold` are left at their defaults by every
rag.py call).  With a language set, rag.py calls
`search_similar(query_vector=…, limit=…, language=…)`; `language` is not
among `search_similar_params`, so the call raises `TypeError` before any
search runs — the language-filtered search, the English fallback search and
the fallback flag are dead code, translated below but unreachable.  With no
language the unfiltered search runs and the flag is `false`. -/
def retrieve_chunks_whole_book
    (embed : String → List Rat)
    (search : List Rat → Nat → Option String → Option String → List SearchResult)
    (question : String) (limit : Nat) (language : Option String) :
    Except PyErr (List SearchResult × Bool) :=
  let query_vector := embed question
  match language with
  | some lang =>
    match py_kwarg_call search_similar_params
        ["query_vector", "limit", "language"]
        (fun _ => search query_vector limit none none) with
    | .error e => .error e
    | .ok results =>
      if results.length < 3 ∧ lang ≠ "en" then
        match py_kwarg_call search_similar_params
            ["query_vector", "limit", "language"]
            (fun _ => search query_vector (limit - results.length) none none) with
        | .error e => .error e
        | .ok english_results => .ok (results ++ english_results, true)
      else .ok (results, false)
  | none =>
    match py_kwarg_call search_similar_params ["query_vector", "limit"]
        (fun _ => search query_vector limit none none) with
    | .error e => .error e
    | .ok results => .ok (results, false)

/-- `retrieve_chunks_selection` (rag.py 135-187) as the source executes it.
The selected text (not the question) is embedded; then rag.py 170-175 calls
`search_similar(query_vector=…, limit=…, doc_path=…, language=language)`.
The `language` keyword is passed even when `language` is `None`, and
`search_similar` does not accept it, so every selection-mode retrieval
raises `TypeError` before any search; the zero-result fallback to
whole-book mode below it is dead code. -/
def retrieve_chunks_selection
    (embed : String → List Rat)
    (search : List Rat → Nat → Option String → Option String → List SearchResult)
    (question selected_text doc_path : String) (limit : Nat)
    (language : Option String) : Except PyErr (List SearchResult × Bool) :=
  let query_vector := embed selected_text
  match py_kwarg_call search_similar_params
      ["query_vector", "limit", "doc_path", "language"]
      (fun _ => search query_vector limit (some doc_path) none) with
  | .error e => .error e
  | .ok results =>
    if results = [] then
      retrieve_chunks_whole_book embed search question limit language
    else .ok (results, false)

/-- `build_context`: render each chunk as a labelled block and join with blank
lines (the f-string is built and then `strip()`ped, `enumerate` starts at 1). -/
def build_context (chunks : List SearchResult) : String :=
  String.intercalate "\n\n"
    (chunks.enum.map (fun p =>
      pyStrip ("\n[Source " ++ toString (p.1 + 1) ++ "]\nDocument: "
        ++ p.2.doc_path ++ "\nSection: " ++ p.2.heading ++ "\nContent: "
        ++ p.2.text ++ "\n---\n")))

/-- The skip condition of `extract_citations`:
`not chunk.text or not chunk.text.strip()`. -/
def isBlankText (c : SearchResult) : Bool :=
  c.text == "" || pyStrip c.text == ""

/-- The snippet construction of `extract_citations` (lines 239-248): strip the
text; past 150 characters, cut at the last `". "` boundary of the first 150
characters when its index is positive, else hard-truncate and append `"..."`. -/
def make_snippet (text : String) : String :=
  let snippet := pyStrip text
  if 150 < snippet.length then
    let cutoff := pyRfind (snippet.toList.take 150) ". ".toList
    if 0 < cutoff then String.mk (snippet.toList.take (cutoff.toNat + 1))
    else String.mk (snippet.toList.take 150) ++ "..."
  else snippet

/-- The `Citation(docPath=…, heading=…, snippet=…)` construction for one
retained chunk (rag.py 254-258), including the pydantic validation. -/
def citation_of_chunk (c : SearchResult) : Except PyErr Citation :=
  mk_Citation c.doc_path c.heading (make_snippet c.text)

/-- The `for chunk in chunks[:max_citations]` loop of `extract_citations`:
blank-text chunks are skipped; every other chunk yields a citation — unless
its snippet fails the `Citation` validation, which aborts the whole call
with `ValidationError`. -/
def extract_citations_go (chunks : List SearchResult) :
    Except PyErr (List Citation) :=
  match chunks with
  | [] => .ok []
  | c :: rest =>
    if isBlankText c then extract_citations_go rest
    else
      match citation_of_chunk c with
      | .error e => .error e
      | .ok cit =>
        match extract_citations_go rest with
        | .error e => .error e
        | .ok cits => .ok (cit :: cits)

/-- `extract_citations`: citations from the first `max_citations` chunks,
skipping blank-text chunks. -/
def extract_citations (chunks : List SearchResult) (max_citations : Nat := 5) :
    Except PyErr (List Citation) :=
  extract_citations_go (chunks.take max_citations)

/-- `calculate_confidence`: deterministic confidence from retrieval signals. -/
def calculate_confidence (num_chunks : Nat) (fallback_applied : Bool) :
    String :=
  if fallback_applied then "low"
  else if num_chunks ≥ 5 then "high"
  else if num_chunks ≥ 3 then "medium"
  else "low"

/-- The `source_headers` dict of `format_sources_section`
(`.get(language, source_headers["en"])`). -/
def source_headers (language : String) : String :=
  if language = "en" then "📚 Sources:"
  else if language = "ur" then "📚 ماخذ:"
  else if language = "ja" then "📚 出典:"
  else "📚 Sources:"

/-- The attribute access `chunk.url_path` performed by
`format_sources_section` (rag.py line 310).  The `SearchResult` dataclass
defines no `url_path` field, so this access raises `AttributeError`. -/
def url_path_attr (_ : SearchResult) : Except PyErr String :=
  .error .attributeError

/-- The source-collection loop of `format_sources_section`: deduplicate by
`doc_path` (first occurrence wins), format `"<heading> - <doc_path>"` (or just
the path when the heading is empty), then append `" (<url_path>)"` when the
`url_path` attribute is truthy — an access that raises on `SearchResult`. -/
def sources_loop (chunks : List SearchResult) (seen : List String) :
    Except PyErr (List String) :=
  match chunks with
  | [] => .ok []
  | c :: rest =>
    if c.doc_path ∈ seen then sources_loop rest seen
    else
      let line := if c.heading ≠ "" then c.heading ++ " - " ++ c.doc_path
        else c.doc_path
      match url_path_attr c with
      | .error e => .error e
      | .ok up =>
        let line := if up ≠ "" then line ++ " (" ++ up ++ ")" else line
        match sources_loop rest (c.doc_path :: seen) with
        | .error e => .error e
        | .ok ls => .ok (line :: ls)

/-- `format_sources_section`: deterministic sources section from chunk
metadata — empty string for no chunks, else a localized header followed by at
most 5 numbered deduplicated source lines. -/
def format_sources_section (chunks : List SearchResult)
    (language : String := "en") : Except PyErr String :=
  if chunks = [] then .ok ""
  else
    match sources_loop chunks [] with
    | .error e => .error e
    | .ok sources =>
      if sources = [] then .ok ""
      else
        .ok ("\n\n" ++ source_headers language ++ "\n"
          ++ String.intercalate "\n"
            ((sources.take 5).enum.map
              (fun p => toString (p.1 + 1) ++ ". " ++ p.2)))

/-- The pydantic `ChatRequest` (schemas.py 19-91): its declared fields are
`mode`, `question`, `selectedText`, `docPath` and `userId`.  It defines no
`preferredLanguage` field. -/
structure ChatRequest where
  mode : String
  question : String
  selectedText : Option String
  docPath : Option String
  userId : Option String
deriving DecidableEq, Repr

/-- The attribute access `request.preferredLanguage` performed by
`answer_chat_request` (rag.py 471): the pydantic `ChatRequest` declares no
such field, so the access raises `AttributeError`. -/
def preferredLanguage_attr (_ : ChatRequest) : Except PyErr (Option String) :=
  .error .attributeError

/-- The pydantic `ChatResponse` (schemas.py 137-162): its declared fields are
only `answer`, `citations` and `mode`.  The `confidence`,
`responseLanguage` and `fallbackApplied` keyword arguments that rag.py
passes are not fields of the model and are silently dropped at construction
(pydantic ignores unknown keyword arguments by default). -/
structure ChatResponse where
  answer : String
  citations : List Citation
  mode : String
deriving DecidableEq, Repr

/-- The fixed answer returned when no chunks were retrieved. -/
def NO_CHUNKS_ANSWER : String :=
  "I couldn't find relevant information in the textbook to answer your question. Please try rephrasing or asking a different question."

/-- The selection-mode context: the selected text is prepended to the
rendered chunks under an explicit label. -/
def selection_context (selected_text ctx : String) : String :=
  "USER SELECTED THIS TEXT TO ASK ABOUT:\n\n" ++ selected_text
    ++ "\n\nRELEVANT TEXTBOOK SECTIONS:\n\n" ++ ctx

/-- `answer_chat_request` (rag.py 436-576) as the source executes it.  Its
first step reads `request.preferredLanguage`, which raises `AttributeError`
for every request (see `preferredLanguage_attr`), so everything below that
access — mode dispatch, retrieval, context assembly, generation, citations,
sources, confidence — is dead code; it is translated anyway, with every
`ChatResponse` construction keeping only the fields the pydantic model
declares.  `gen question context` is the generation collaborator
(`generate_answer`) and `limit_cfg` is `config.CHUNK_RETRIEVAL_LIMIT`. -/
def answer_chat_request
    (embed : String → List Rat)
    (search : List Rat → Nat → Option String → Option String → List SearchResult)
    (gen : String → String → String)
    (limit_cfg : Nat) (req : ChatRequest) : Except PyErr ChatResponse :=
  match preferredLanguage_attr req with
  | .error e => .error e
  | .ok preferred_language =>
    let retrieved : Except PyErr (List SearchResult × Bool) :=
      if req.mode = "whole-book" then
        retrieve_chunks_whole_book embed search req.question limit_cfg
          preferred_language
      else
        match req.selectedText, req.docPath with
        | some sel, some dp =>
          if sel = "" ∨ dp = "" then .error .valueError
          else
            retrieve_chunks_selection embed search req.question sel dp
              (min limit_cfg 5) preferred_language
        | _, _ => .error .valueError
    match retrieved with
    | .error e => .error e
    | .ok (chunks, fallback_applied) =>
      if chunks = [] then
        -- ChatResponse(answer=…, citations=[], mode=…, responseLanguage=…,
        -- fallbackApplied=False): the last two keywords are dropped
        .ok ⟨NO_CHUNKS_ANSWER, [], req.mode⟩
      else
        let context :=
          match req.mode == "selection", req.selectedText with
          | true, some sel =>
            if sel ≠ "" then selection_context sel (build_context chunks)
            else build_context chunks
          | _, _ => build_context chunks
        let response_language := preferred_language.getD "en"
        let answer := gen req.question context
        match extract_citations chunks 5 with
        | .error e => .error e
        | .ok citations =>
          match format_sources_section chunks response_language with
          | .error e => .error e
          | .ok sources_section =>
            -- confidence = calculate_confidence(len(chunks), fallback_applied)
            -- is computed and passed to ChatResponse, which drops it together
            -- with responseLanguage and fallbackApplied
            let _confidence :=
              calculate_confidence chunks.length fallback_applied
            .ok ⟨answer ++ sources_section, citations, req.mode⟩

/-! ## Chunker lemmas -/

theorem split_loop_isSome (c : MarkdownChunker)
    (h : c.chunk_overlap < c.chunk_size) (tokens : List Nat)
    (heading : String) :
    ∀ fuel cur idx, tokens.length - cur < fuel →
      (split_loop c tokens heading fuel cur idx).isSome = true := by
  intro fuel
  induction fuel with
  | zero => intro cur idx hlt; omega
  | succ f ih =>
    intro cur idx hlt
    simp only [split_loop]
    split
    · rename_i hc
      split
      · rename_i he
        have hrec := ih (min (cur + c.chunk_size) tokens.length - c.chunk_overlap)
          (idx + 1) (by omega)
        cases hsl : split_loop c tokens heading f
            (min (cur + c.chunk_size) tokens.length - c.chunk_overlap) (idx + 1) with
        | none => rw [hsl] at hrec; simp at hrec
        | some more => simp
      · simp
    · simp

theorem split_loop_bound (c : MarkdownChunker) (tokens : List Nat)
    (heading : String) :
    ∀ fuel cur idx r, split_loop c tokens heading fuel cur idx = some r →
      ∀ ch ∈ r, ch.token_count ≤ c.chunk_size := by
  intro fuel
  induction fuel with
  | zero => intro cur idx r hr; simp [split_loop] at hr
  | succ f ih =>
    intro cur idx r hr
    simp only [split_loop] at hr
    split at hr
    · rename_i hc
      split at hr
      · rename_i he
        cases hsl : split_loop c tokens heading f
            (min (cur + c.chunk_size) tokens.length - c.chunk_overlap) (idx + 1) with
        | none => rw [hsl] at hr; exact absurd hr (by simp)
        | some more =>
          rw [hsl] at hr
          simp only [Option.some.injEq] at hr
          subst hr
          intro ch hch
          rcases List.mem_cons.mp hch with hhd | htl
          · subst hhd
            simp only [List.length_take, List.length_drop]
            omega
          · exact ih _ _ _ hsl ch htl
      · simp only [Option.some.injEq] at hr
        subst hr
        intro ch hch
        rcases List.mem_cons.mp hch with hhd | htl
        · subst hhd
          simp only [List.length_take, List.length_drop]
          omega
        · simp at htl
    · simp only [Option.some.injEq] at hr
      subst hr
      intro ch hch
      simp at hch

theorem _split_long_text_isSome (c : MarkdownChunker)
    (h : c.chunk_overlap < c.chunk_size) (text heading : String) (idx : Nat) :
    (_split_long_text c text heading idx).isSome = true := by
  unfold _split_long_text
  exact split_loop_isSome c h _ heading _ 0 idx (by omega)

theorem _split_long_text_bound (c : MarkdownChunker) (text heading : String)
    (idx : Nat) (r : List TextChunk)
    (hr : _split_long_text c text heading idx = some r) :
    ∀ ch ∈ r, ch.token_count ≤ c.chunk_size := by
  unfold _split_long_text at hr
  exact split_loop_bound c _ heading _ 0 idx r hr


theorem section_to_chunks_isSome (c : MarkdownChunker)
    (h : c.chunk_overlap < c.chunk_size) (sec heading : String) (idx : Nat) :
    (section_to_chunks c sec heading idx).isSome = true := by
  simp only [section_to_chunks]
  split
  · simp
  · exact _split_long_text_isSome c h sec heading idx

theorem section_to_chunks_bound (c : MarkdownChunker) (sec heading : String)
    (idx : Nat) (r : List TextChunk)
    (hr : section_to_chunks c sec heading idx = some r) :
    ∀ ch ∈ r, ch.token_count ≤ c.chunk_size := by
  simp only [section_to_chunks] at hr
  split at hr
  · rename_i hle
    simp only [Option.some.injEq] at hr
    subst hr
    intro ch hch
    rcases List.mem_cons.mp hch with hhd | htl
    · subst hhd; exact hle
    · simp at htl
  · exact _split_long_text_bound c sec heading idx r hr

theorem chunk_sections_go_isSome (c : MarkdownChunker)
    (h : c.chunk_overlap < c.chunk_size) (cs : List Char) :
    ∀ hs idx, (chunk_sections_go c cs hs idx).isSome = true := by
  intro hs
  induction hs with
  | nil => intro idx; simp [chunk_sections_go]
  | cons hd tl ih =>
    intro idx
    obtain ⟨heading, pos⟩ := hd
    simp only [chunk_sections_go]
    split
    · rename_i heq
      have hs := section_to_chunks_isSome c h
        (pyStrip (String.mk (sliceChars cs pos (next_heading_pos cs tl))))
        heading idx
      rw [heq] at hs
      simp at hs
    · rename_i sc heq
      split
      · rename_i heq2
        have hs := ih (idx + sc.length)
        rw [heq2] at hs
        simp at hs
      · simp

theorem chunk_sections_go_bound (c : MarkdownChunker) (cs : List Char) :
    ∀ hs idx r, chunk_sections_go c cs hs idx = some r →
      ∀ ch ∈ r, ch.token_count ≤ c.chunk_size := by
  intro hs
  induction hs with
  | nil =>
    intro idx r hr
    simp only [chunk_sections_go, Option.some.injEq] at hr
    subst hr
    intro ch hch
    simp at hch
  | cons hd tl ih =>
    intro idx r hr
    obtain ⟨heading, pos⟩ := hd
    simp only [chunk_sections_go] at hr
    split at hr
    · exact absurd hr (by simp)
    · rename_i sc heq
      split at hr
      · exact absurd hr (by simp)
      · rename_i m heq2
        simp only [Option.some.injEq] at hr
        subst hr
        intro ch hch
        rcases List.mem_append.mp hch with hl | hrr
        · exact section_to_chunks_bound c _ heading idx sc heq ch hl
        · exact ih (idx + sc.length) m heq2 ch hrr

theorem chunk_document_isSome (c : MarkdownChunker)
    (h : c.chunk_overlap < c.chunk_size) (text : String) :
    (chunk_document c text).isSome = true := by
  simp only [chunk_document, chunk_by_headings]
  split
  · exact _split_long_text_isSome c h text "Introduction" 0
  · exact chunk_sections_go_isSome c h _ _ 0

theorem chunk_document_bound (c : MarkdownChunker) (text : String)
    (r : List TextChunk) (hr : chunk_document c text = some r) :
    ∀ ch ∈ r, ch.token_count ≤ c.chunk_size := by
  simp only [chunk_document, chunk_by_headings] at hr
  split at hr
  · exact _split_long_text_bound c text "Introduction" 0 r hr
  · exact chunk_sections_go_bound c _ _ 0 r hr

/-! ## Concrete tokenizer for witnesses

A concrete instance of the abstract encoding pair: one token per character.
The theorems below quantify over arbitrary encodings; these instances only
serve to evaluate the model on concrete inputs. -/

def toyEncode (s : String) : List Nat := s.toList.map Char.toNat

def toyDecode (l : List Nat) : String := String.mk (l.map Char.ofNat)

/-! ## Claims about the chunker -/

/-- C7: every `TextChunk` produced by `chunk_document` has `token_count` at
most the configured `chunk_size` (the hard split bounds every window), and a
section whose token count is exactly `chunk_size` is emitted whole as a
single chunk — the comparison in `chunk_by_headings` is `≤`, not `<`. -/
theorem chunk_document_token_bound
    (enc : String → List Nat) (dec : List Nat → String)
    (size overlap : Nat) (text : String) (_hvalid : overlap < size) :
    (((chunk_document ⟨size, overlap, enc, dec⟩ text).getD []).all
        (fun ch => decide (ch.token_count ≤ size)) = true)
    ∧ (∀ sec heading idx, (enc sec).length = size →
        section_to_chunks ⟨size, overlap, enc, dec⟩ sec heading idx
          = some [⟨sec, heading, idx, size⟩]) := by
  constructor
  · cases hr : chunk_document ⟨size, overlap, enc, dec⟩ text with
    | none => simp
    | some r =>
      simp only [Option.getD_some]
      rw [List.all_eq_true]
      intro ch hch
      exact decide_eq_true (chunk_document_bound _ text r hr ch hch)
  · intro sec heading idx hlen
    simp only [section_to_chunks, count_tokens]
    rw [hlen, if_pos (le_refl size)]

/-- C7 witness: with the one-token-per-character encoding, a document whose
sections exceed a chunk size of 5 is chunked with every window bounded by 5,
and a 5-token section is emitted whole. -/
theorem chunk_document_token_bound_witness :
    (((chunk_document ⟨5, 1, toyEncode, toyDecode⟩
        "# Ab\ncd ef\n## Gh\nxyz").getD []).all
      (fun ch => decide (ch.token_count ≤ 5)) = true)
    ∧ section_to_chunks ⟨5, 1, toyEncode, toyDecode⟩ "abcde" "H" 3
        = some [⟨"abcde", "H", 3, 5⟩] :=
  ⟨(chunk_document_token_bound toyEncode toyDecode 5 1
      "# Ab\ncd ef\n## Gh\nxyz" (by decide)).1,
   (chunk_document_token_bound toyEncode toyDecode 5 1 "" (by decide)).2
     "abcde" "H" 3 (by decide)⟩

/-- C9: under the precondition `chunk_overlap < chunk_size` the splitting
loop of `_split_long_text` terminates for every input — every continuing
iteration strictly increases the current token position, so
`total_tokens + 1` fuel always suffices and `chunk_document` returns a
result.  Without the precondition termination is not guaranteed for texts
longer than `chunk_size` tokens: with `chunk_size = chunk_overlap = 1` and a
two-token text the position never advances and every amount of fuel is
exhausted. -/
theorem split_long_text_termination :
    (∀ (enc : String → List Nat) (dec : List Nat → String)
        (size overlap : Nat) (text : String), overlap < size →
      (chunk_document ⟨size, overlap, enc, dec⟩ text).isSome = true)
    ∧ (∀ fuel idx,
        split_loop ⟨1, 1, toyEncode, toyDecode⟩ (toyEncode "ab")
          "Introduction" fuel 0 idx = none) := by
  constructor
  · intro enc dec size overlap text h
    exact chunk_document_isSome ⟨size, overlap, enc, dec⟩ h text
  · have htok : toyEncode "ab" = [97, 98] := by decide
    intro fuel
    induction fuel with
    | zero => intro idx; simp [split_loop]
    | succ f ih =>
      intro idx
      rw [htok] at ih ⊢
      simp only [split_loop]
      rw [if_pos (by decide : 0 < ([97, 98] : List Nat).length)]
      rw [if_pos (by decide :
        min (0 + (1 : Nat)) ([97, 98] : List Nat).length < ([97, 98] : List Nat).length)]
      have : min (0 + (1 : Nat)) ([97, 98] : List Nat).length - 1 = 0 := by decide
      rw [this, ih (idx + 1)]

/-- C9 witness: the termination half at a concrete configuration — chunk
size 5, overlap 1, a concrete document — produces a result. -/
theorem split_long_text_termination_witness :
    (chunk_document ⟨5, 1, toyEncode, toyDecode⟩
      "# Ab\ncd ef\n## Gh\nxyz").isSome = true :=
  split_long_text_termination.1 toyEncode toyDecode 5 1
    "# Ab\ncd ef\n## Gh\nxyz" (by decide)

/-- C3 counterexample: a `MarkdownChunker` configured with
`chunk_overlap = chunk_size = 100` is constructed without any error, and
`chunk_document` then produces a chunk instead of raising — the claimed
configuration validation does not exist in `chunker.py`. -/
theorem chunker_accepts_overlap_eq_size :
    chunk_document ⟨100, 100, toyEncode, toyDecode⟩ "hello world"
      = some [⟨"hello world", "Introduction", 0, 11⟩] := by
  decide

/-- C3 (amended): the character-based `_split_into_chunks` of
`rag_multilingual.py` raises `ValueError` before producing any chunk whenever
`chunk_size ≤ chunk_overlap`; `MarkdownChunker` performs no such validation —
its constructor accepts `chunk_overlap ≥ chunk_size` and chunking proceeds
without error (for example on any input that fits in a single chunk). -/
theorem chunk_overlap_validation_amended :
    (∀ (text : String) (size overlap : Nat), size ≤ overlap →
      _split_into_chunks text size overlap
        = .error "chunk_size must be greater than chunk_overlap")
    ∧ chunk_document ⟨100, 100, toyEncode, toyDecode⟩ "hello world"
        = some [⟨"hello world", "Introduction", 0, 11⟩] := by
  constructor
  · intro text size overlap h
    simp only [_split_into_chunks]
    rw [dif_pos h]
  · decide

/-- C3 witness: the validation half at a concrete invalid configuration. -/
theorem chunk_overlap_validation_witness :
    _split_into_chunks "abc" 3 5
      = .error "chunk_size must be greater than chunk_overlap" :=
  chunk_overlap_validation_amended.1 "abc" 3 5 (by decide)

/-! ## Claims about confidence and citations -/

/-- C2: `calculate_confidence` is a pure function evaluating in order —
`fallback_applied = true` gives `"low"` for every chunk count; otherwise
`"high"` for counts `≥ 5`, `"medium"` for counts in `[3, 4]`, `"low"` below
3 — with the four documented instances. -/
theorem calculate_confidence_policy (n : Nat) :
    calculate_confidence n true = "low"
    ∧ (5 ≤ n → calculate_confidence n false = "high")
    ∧ (3 ≤ n → n ≤ 4 → calculate_confidence n false = "medium")
    ∧ (n < 3 → calculate_confidence n false = "low")
    ∧ calculate_confidence 5 false = "high"
    ∧ calculate_confidence 4 false = "medium"
    ∧ calculate_confidence 5 true = "low"
    ∧ calculate_confidence 2 false = "low" := by
  refine ⟨rfl, ?_, ?_, ?_, by decide, by decide, by decide, by decide⟩
  · intro h
    unfold calculate_confidence
    rw [if_neg (by simp), if_pos h]
  · intro h3 h4
    unfold calculate_confidence
    rw [if_neg (by simp), if_neg (by omega), if_pos h3]
  · intro h
    unfold calculate_confidence
    rw [if_neg (by simp), if_neg (by omega), if_neg (by omega)]

/-- C2 witness: the conditional branches at concrete counts. -/
theorem calculate_confidence_policy_witness :
    calculate_confidence 7 false = "high"
    ∧ calculate_confidence 3 false = "medium"
    ∧ calculate_confidence 1 false = "low" :=
  ⟨(calculate_confidence_policy 7).2.1 (by decide),
   (calculate_confidence_policy 3).2.2.1 (by decide) (by decide),
   (calculate_confidence_policy 1).2.2.2.1 (by decide)⟩

/-- `rfind` never reports past the end of the haystack. -/
theorem pyRfind_le (hay needle : List Char) :
    pyRfind hay needle ≤ (hay.length : Int) := by
  unfold pyRfind
  cases hq : ((List.range (hay.length + 1)).filter
      (fun i => needle.isPrefixOf (hay.drop i))).getLast? with
  | none =>
    show (-1 : Int) ≤ (hay.length : Int)
    omega
  | some i =>
    obtain ⟨hne, heq⟩ := List.mem_getLast?_eq_getLast (Option.mem_def.mpr hq)
    have hmem : i ∈ (List.range (hay.length + 1)).filter
        (fun i => needle.isPrefixOf (hay.drop i)) := by
      rw [heq]
      exact List.getLast_mem hne
    have hr := List.mem_range.mp (List.mem_filter.mp hmem).1
    show (i : Int) ≤ (hay.length : Int)
    omega

/-- An upper bound on snippet length: `make_snippet` never yields more than
153 characters (the 150-character hard cut plus the 3-character ellipsis),
so the 500-character `max_length` of `Citation.snippet` is never reached —
only the 10-character `min_length` can fail. -/
theorem make_snippet_length_le (text : String) :
    (make_snippet text).length ≤ 500 := by
  have hrfind := pyRfind_le ((pyStrip text).toList.take 150) ". ".toList
  have htake : ((pyStrip text).toList.take 150).length ≤ 150 := by
    rw [List.length_take]
    omega
  rw [List.length_take] at hrfind
  simp only [make_snippet]
  split
  · split
    · show (List.take ((pyRfind ((pyStrip text).toList.take 150)
          ". ".toList).toNat + 1) (pyStrip text).toList).length ≤ 500
      rw [List.length_take]
      omega
    · show (String.mk ((pyStrip text).toList.take 150) ++ "...").length ≤ 500
      rw [String.length_append]
      show ((pyStrip text).toList.take 150).length + "...".length ≤ 500
      have hdots : "...".length = 3 := rfl
      rw [List.length_take, hdots]
      omega
  · rename_i hle
    omega

/-- Concrete chunk list for the C4 counterexample: a whitespace-only chunk in
first position followed by five chunks whose texts are non-empty (and long
enough to pass the `Citation` snippet validation). -/
def c4_chunks : List SearchResult :=
  [⟨"b", 1, "d", "m", "h", 0, "   "⟩,
   ⟨"1", 1, "d", "m", "h", 1, "text number one"⟩,
   ⟨"2", 1, "d", "m", "h", 2, "text number two"⟩,
   ⟨"3", 1, "d", "m", "h", 3, "text number three"⟩,
   ⟨"4", 1, "d", "m", "h", 4, "text number four"⟩,
   ⟨"5", 1, "d", "m", "h", 5, "text number five"⟩]

/-- A non-blank chunk whose stripped text is shorter than the 10-character
`min_length` of `Citation.snippet`. -/
def c4_short_chunk : SearchResult := ⟨"s", 1, "d", "m", "h", 0, "short"⟩

/-- C4 counterexample: the claimed count formula fails twice over.
`extract_citations` slices `chunks[:max_citations]` before filtering blank
chunks, so with a whitespace-only chunk among the first `max_citations = 5`
and five non-empty chunks in total it returns 4 citations, not
`min(5, 5) = 5`; and on a non-blank chunk whose stripped text is shorter
than 10 characters it returns no citation list at all — the pydantic
`Citation` model rejects the snippet and the call raises
`ValidationError`. -/
theorem extract_citations_count_counterexample :
    extract_citations c4_chunks 5
      = .ok [⟨"d", "h", "text number one"⟩, ⟨"d", "h", "text number two"⟩,
             ⟨"d", "h", "text number three"⟩, ⟨"d", "h", "text number four"⟩]
    ∧ (c4_chunks.filter (fun c => !(isBlankText c))).length = 5
    ∧ extract_citations [c4_short_chunk] 5 = .error .validationError := by
  refine ⟨by rfl, by decide, by rfl⟩

/-- C4 (amended): provided every retained snippet passes the pydantic
`Citation` validation — at least 10 characters; the 500-character cap is
never reached since snippets are at most 153 characters —
`extract_citations` returns exactly one citation per non-blank chunk among
the **first** `max_citations` chunks, in input order, and never one derived
from an empty or whitespace-only chunk; the count is therefore the number of
non-blank chunks in that prefix, which falls below
`min(max_citations, total non-blank count)` when blank chunks occupy prefix
positions.  If some retained stripped snippet is shorter than 10 characters,
the call instead raises `ValidationError`. -/
theorem extract_citations_amended (chunks : List SearchResult)
    (max_citations : Nat) :
    ((∀ c ∈ chunks.take max_citations, isBlankText c = false →
        10 ≤ (make_snippet c.text).length) →
      extract_citations chunks max_citations
        = .ok (((chunks.take max_citations).filter
            (fun c => !(isBlankText c))).map
              (fun c => ⟨c.doc_path, c.heading, make_snippet c.text⟩)))
    ∧ ((∃ c ∈ chunks.take max_citations, isBlankText c = false ∧
        (make_snippet c.text).length < 10) →
      extract_citations chunks max_citations = .error .validationError) := by
  unfold extract_citations
  generalize chunks.take max_citations = l
  constructor
  · induction l with
    | nil => intro _; rfl
    | cons c rest ih =>
      intro h
      have hrest := ih (fun x hx hbx => h x (List.mem_cons_of_mem c hx) hbx)
      simp only [extract_citations_go, List.filter_cons]
      cases hb : isBlankText c
      · have hc := h c (List.mem_cons_self c rest) hb
        have hok : citation_of_chunk c
            = .ok ⟨c.doc_path, c.heading, make_snippet c.text⟩ := by
          unfold citation_of_chunk mk_Citation
          rw [if_pos ⟨hc, make_snippet_length_le c.text⟩]
        simp [hb, hok, hrest]
      · simp [hb, hrest]
  · induction l with
    | nil =>
      rintro ⟨x, hx, _⟩
      exact absurd hx (List.not_mem_nil x)
    | cons c rest ih =>
      rintro ⟨x, hx, hxb, hxs⟩
      simp only [extract_citations_go]
      cases hb : isBlankText c
      · by_cases hshort : (make_snippet c.text).length < 10
        · have herr : citation_of_chunk c = .error .validationError := by
            unfold citation_of_chunk mk_Citation
            rw [if_neg (fun hcon => by omega)]
          simp [hb, herr]
        · have hxrest : x ∈ rest := by
            rcases List.mem_cons.mp hx with hxc | hxr
            · subst hxc; omega
            · exact hxr
          have hok : citation_of_chunk c
              = .ok ⟨c.doc_path, c.heading, make_snippet c.text⟩ := by
            unfold citation_of_chunk mk_Citation
            rw [if_pos ⟨by omega, make_snippet_length_le c.text⟩]
          have hrest := ih ⟨x, hxrest, hxb, hxs⟩
          simp [hb, hok, hrest]
      · have hxrest : x ∈ rest := by
          rcases List.mem_cons.mp hx with hxc | hxr
          · subst hxc; rw [hxb] at hb; exact absurd hb (by simp)
          · exact hxr
        have hrest := ih ⟨x, hxrest, hxb, hxs⟩
        simp [hb, hrest]

/-- C4 witness: both amended branches at concrete inputs — the
validated-snippet equation on `c4_chunks`, and the `ValidationError` on the
short-snippet chunk. -/
theorem extract_citations_amended_witness :
    extract_citations c4_chunks 5
      = .ok (((c4_chunks.take 5).filter (fun c => !(isBlankText c))).map
          (fun c => ⟨c.doc_path, c.heading, make_snippet c.text⟩))
    ∧ extract_citations [c4_short_chunk] 5 = .error .validationError :=
  ⟨(extract_citations_amended c4_chunks 5).1 (by decide),
   (extract_citations_amended [c4_short_chunk] 5).2
     ⟨c4_short_chunk, by decide, by decide, by decide⟩⟩

/-! ## Claim about the vector-index result conversion -/

/-- C10: `search_similar` converts every returned point into a
`SearchResult` totally — one result per point, `id` and `score` passed
through, and every payload field read with a silent default (`""` for the
string fields, `0` for `chunk_index`), so a partial payload never makes the
conversion fail and every returned `SearchResult` has all fields populated. -/
theorem search_similar_payload_defaults (points : List ScoredPoint) :
    (search_similar_results points).length = points.length
    ∧ List.Forall₂ (fun (r : SearchResult) (p : ScoredPoint) =>
        r.id = p.id ∧ r.score = p.score
        ∧ r.doc_path = p.payload.doc_path.getD ""
        ∧ r.module_id = p.payload.module_id.getD ""
        ∧ r.heading = p.payload.heading.getD ""
        ∧ r.chunk_index = p.payload.chunk_index.getD 0
        ∧ r.text = p.payload.text.getD "")
      (search_similar_results points) points := by
  constructor
  · simp [search_similar_results]
  · induction points with
    | nil => exact List.Forall₂.nil
    | cons p rest ih =>
      exact List.Forall₂.cons ⟨rfl, rfl, rfl, rfl, rfl, rfl, rfl⟩ ih

/-! ## Claims about the retrieval orchestrator -/

/-- C1: the claimed language-filtered whole-book retrieval cannot execute.
For every call with a language set, `retrieve_chunks_whole_book` raises
`TypeError` at its first search: rag.py passes the `language` keyword to
`qdrant.search_similar`, which declares no such parameter — so the
language-filtered search, the English fallback search, the merge and the
fallback flag never run.  Only the language-unset branch executes: one
unfiltered search, flag `false`. -/
theorem whole_book_language_typeerror
    (embed : String → List Rat)
    (search : List Rat → Nat → Option String → Option String → List SearchResult)
    (question : String) (limit : Nat) (lang : String) :
    retrieve_chunks_whole_book embed search question limit (some lang)
      = .error .typeError
    ∧ retrieve_chunks_whole_book embed search question limit none
      = .ok (search (embed question) limit none none, false) :=
  ⟨rfl, rfl⟩

/-- C5: the claimed selection-mode retrieval cannot execute.
`retrieve_chunks_selection` raises `TypeError` on every input: rag.py
170-175 always passes the `language` keyword (even when it is `None`) to
`qdrant.search_similar`, which does not accept it — so the document-scoped
search and the whole-book delegation never run. -/
theorem selection_retrieval_typeerror
    (embed : String → List Rat)
    (search : List Rat → Nat → Option String → Option String → List SearchResult)
    (question selected_text doc_path : String) (limit : Nat)
    (language : Option String) :
    retrieve_chunks_selection embed search question selected_text doc_path
        limit language
      = .error .typeError :=
  rfl

/-- C6: no retrieval outcome is ever produced by the pipeline, so the
claimed invariant never gets to hold of one.  `answer_chat_request` raises
`AttributeError` on every request at its very first step — it reads
`request.preferredLanguage`, a field the pydantic `ChatRequest` does not
declare — before any retrieval; and the pydantic `ChatResponse` declares no
`fallbackApplied` field (the keyword rag.py passes is silently dropped), so
no response carrying the flag could be built even past that point. -/
theorem answer_chat_request_attributeerror
    (embed : String → List Rat)
    (search : List Rat → Nat → Option String → Option String → List SearchResult)
    (gen : String → String → String) (limit_cfg : Nat) (req : ChatRequest) :
    answer_chat_request embed search gen limit_cfg req
      = .error .attributeError :=
  rfl

/-! ## Claim about the sources section -/

/-- C8: on the claim's own example input — chunks with document paths
`a`, `a`, `b` and headings `H1`, `H2`, `H3` — `format_sources_section` does
not return the claimed two numbered entries: it raises `AttributeError` at
its first chunk, because it reads `chunk.url_path` and the `SearchResult`
dataclass defines no `url_path` field (the ingestion pipeline stores
`url_path` in the payload, but `search_similar` never extracts it). -/
theorem format_sources_section_attribute_error :
    format_sources_section
      [⟨"1", 1, "a", "m", "H1", 0, "t"⟩, ⟨"2", 1, "a", "m", "H2", 0, "t"⟩,
       ⟨"3", 1, "b", "m", "H3", 0, "t"⟩] "en"
      = .error .attributeError := by
  rfl
